import Mathlib

/-!
Verification development for the model-gateway server in `src/kire.js`.

The JavaScript source is shallowly embedded: pure functions become Lean
functions, the HTTP handlers become functions from the request query
parameters (each an `Option String`, absent parameter = `none`) and an
oracle describing the remote endpoint to a triple of HTTP status,
response body and the list of outbound calls issued.  JavaScript numbers
appearing in request parameters are modelled by `JSNum` (a rational or
one of NaN, Infinity, -Infinity); usage metadata is passed through
unvalidated, which the embedding captures by making it an arbitrary type
parameter `U`.
-/

namespace Kire

/-! ### JavaScript numeric values and parsing primitives -/

/-- A JavaScript number as it can result from `parseFloat` / `parseInt`:
NaN, an infinity, or a finite value (modelled as a rational; the source
performs no arithmetic on these values, only passes them through). -/
inductive JSNum where
  | nan
  | inf
  | negInf
  | num (val : ℚ)
deriving DecidableEq

/-- Numeric value of a list of decimal digit characters. -/
def digitsToNat (ds : List Char) : ℕ :=
  ds.foldl (fun a c => 10 * a + (c.toNat - 48)) 0

/-- Hexadecimal digit predicate, as accepted by `parseInt` with a `0x` prefix. -/
def isHexDigitCh (c : Char) : Bool :=
  c.isDigit || ('a' ≤ c && c ≤ 'f') || ('A' ≤ c && c ≤ 'F')

/-- Numeric value of one hexadecimal digit character. -/
def hexVal (c : Char) : ℕ :=
  if c.isDigit then c.toNat - 48
  else if 'a' ≤ c ∧ c ≤ 'f' then c.toNat - 87
  else c.toNat - 55

/-- Numeric value of a list of hexadecimal digit characters. -/
def hexToNat (ds : List Char) : ℕ :=
  ds.foldl (fun a c => 16 * a + hexVal c) 0

/-- Whitespace characters recognised by the string primitives. -/
def isWsCh (c : Char) : Bool :=
  c = ' ' || c = '\t' || c = '\n' || c = '\r'

/-- Drop leading whitespace, as both `parseFloat` and `parseInt` do. -/
def skipWs : List Char → List Char
  | [] => []
  | c :: cs => if isWsCh c then skipWs cs else c :: cs

/-- `startsWithCh p s`: the character list `p` is a prefix of `s`. -/
def startsWithCh : List Char → List Char → Bool
  | [], _ => true
  | _ :: _, [] => false
  | p :: ps, c :: cs => p = c && startsWithCh ps cs

/-- JavaScript `String.prototype.startsWith` (case-sensitive prefix test). -/
def jsStartsWith (s pre : String) : Bool :=
  startsWithCh pre.data s.data

/-- JavaScript `String.prototype.split` with separator `","`, on character
lists: splitting the empty string yields one empty field. -/
def splitCommaChars : List Char → List (List Char)
  | [] => [[]]
  | c :: cs =>
      match splitCommaChars cs, decide (c = ',') with
      | r, true => [] :: r
      | h :: t, false => (c :: h) :: t
      | [], false => [[c]]

/-- JavaScript `String.prototype.split` with separator `","`. -/
def splitComma (s : String) : List String :=
  (splitCommaChars s.data).map String.mk

/-- JavaScript `String.prototype.trim`: strip whitespace at both ends. -/
def jsTrim (s : String) : String :=
  String.mk (((s.data.dropWhile isWsCh).reverse.dropWhile isWsCh).reverse)

/-- The optional exponent part of a float literal: the signed exponent
value, or 0 when no well-formed exponent part starts here. -/
def parseExp : List Char → ℤ
  | 'e' :: '+' :: rest =>
      (if rest.takeWhile Char.isDigit = [] then 0 else (digitsToNat (rest.takeWhile Char.isDigit) : ℤ))
  | 'E' :: '+' :: rest =>
      (if rest.takeWhile Char.isDigit = [] then 0 else (digitsToNat (rest.takeWhile Char.isDigit) : ℤ))
  | 'e' :: '-' :: rest =>
      (if rest.takeWhile Char.isDigit = [] then 0 else -(digitsToNat (rest.takeWhile Char.isDigit) : ℤ))
  | 'E' :: '-' :: rest =>
      (if rest.takeWhile Char.isDigit = [] then 0 else -(digitsToNat (rest.takeWhile Char.isDigit) : ℤ))
  | 'e' :: rest =>
      (if rest.takeWhile Char.isDigit = [] then 0 else (digitsToNat (rest.takeWhile Char.isDigit) : ℤ))
  | 'E' :: rest =>
      (if rest.takeWhile Char.isDigit = [] then 0 else (digitsToNat (rest.takeWhile Char.isDigit) : ℤ))
  | _ => 0

/-- The unsigned part of `parseFloat`: longest decimal-literal prefix
(`Infinity`, or digits with an optional fraction and exponent), NaN when
no such prefix exists. -/
def parseFloatUnsigned (cs : List Char) (neg : Bool) : JSNum :=
  if cs.take 8 = ['I', 'n', 'f', 'i', 'n', 'i', 't', 'y'] then
    (if neg then .negInf else .inf)
  else
    let intDigits := cs.takeWhile Char.isDigit
    let rest1 := cs.dropWhile Char.isDigit
    let fracDigits :=
      match rest1 with
      | '.' :: cs2 => cs2.takeWhile Char.isDigit
      | _ => []
    let rest2 :=
      match rest1 with
      | '.' :: cs2 => cs2.dropWhile Char.isDigit
      | _ => rest1
    if intDigits = [] ∧ fracDigits = [] then .nan
    else
      let e := parseExp rest2
      let mant : ℚ := (digitsToNat intDigits : ℚ) + (digitsToNat fracDigits : ℚ) / ((10 : ℚ) ^ fracDigits.length)
      let v := mant * (10 : ℚ) ^ e
      .num (if neg then -v else v)

/-- JavaScript `parseFloat`: skip leading whitespace, optional sign, then
the longest decimal-literal prefix; NaN when none. -/
def parseFloat (s : String) : JSNum :=
  match skipWs s.data with
  | '+' :: cs => parseFloatUnsigned cs false
  | '-' :: cs => parseFloatUnsigned cs true
  | cs => parseFloatUnsigned cs false

/-- The unsigned part of `parseInt` (radix not supplied): a `0x`-prefixed
hexadecimal-digit run or a decimal-digit run; NaN when empty. -/
def parseIntUnsigned (cs : List Char) (neg : Bool) : JSNum :=
  let hexRest : Option (List Char) :=
    match cs with
    | '0' :: 'x' :: rest => some rest
    | '0' :: 'X' :: rest => some rest
    | _ => none
  match hexRest with
  | some rest =>
      let d := rest.takeWhile isHexDigitCh
      if d = [] then .nan
      else .num (if neg then -(hexToNat d : ℚ) else (hexToNat d : ℚ))
  | none =>
      let d := cs.takeWhile Char.isDigit
      if d = [] then .nan
      else .num (if neg then -(digitsToNat d : ℚ) else (digitsToNat d : ℚ))

/-- JavaScript `parseInt` with no radix argument: skip leading whitespace,
optional sign, then a hexadecimal (`0x`) or decimal digit run. -/
def parseInt (s : String) : JSNum :=
  match skipWs s.data with
  | '+' :: cs => parseIntUnsigned cs false
  | '-' :: cs => parseIntUnsigned cs true
  | cs => parseIntUnsigned cs false

/-- Truthiness of an optional query-parameter value: JavaScript treats an
absent value (`undefined`) and the empty string as falsy. -/
def truthy : Option String → Bool
  | none => false
  | some s => s != ""

/-! ### Model registry (`MODELS`, `getPublisher`) -/

/-- The fixed registry of the 24 model identifiers, verbatim from the source. -/
def MODELS : List String :=
  [ "gpt-4o",
    "gpt-4o-mini",
    "AI21-Jamba-Instruct",
    "Cohere-command-r",
    "Cohere-command-r-plus",
    "Cohere-embed-v3-english",
    "Cohere-embed-v3-multilingual",
    "Meta-Llama-3-70B-Instruct",
    "Meta-Llama-3-8B-Instruct",
    "Meta-Llama-3.1-405B-Instruct",
    "Meta-Llama-3.1-70B-Instruct",
    "Meta-Llama-3.1-8B-Instruct",
    "Meta-Llama-3.2-11B-Vision-Instruct",
    "Meta-Llama-3.2-1B-Instruct",
    "Meta-Llama-3.2-3B-Instruct",
    "Meta-Llama-3.2-90B-Vision-Instruct",
    "Mistral-large-2407",
    "Mistral-Nemo",
    "Mistral-small",
    "Phi-3.5-mini-instruct",
    "Phi-3.5-MoE-instruct",
    "Phi-3.5-vision-instruct",
    "Qwen2.5-72B-Instruct",
    "Qwen2.5-Coder-32B-Instruct" ]

/-- `getPublisher` from the source: case-sensitive prefix tests in the
fixed order of the if-chain, first match wins, otherwise Unknown. -/
def getPublisher (modelId : String) : String :=
  if jsStartsWith modelId "gpt-" then "OpenAI"
  else if jsStartsWith modelId "Meta-Llama" then "Meta"
  else if jsStartsWith modelId "Mistral" then "Mistral"
  else if jsStartsWith modelId "Phi-" then "Microsoft"
  else if jsStartsWith modelId "Cohere" then "Cohere"
  else if jsStartsWith modelId "AI21" then "AI21 Labs"
  else if jsStartsWith modelId "Qwen" then "Qwen"
  else "Unknown"

/-! ### Outbound call helper (`callGitHubModel`) -/

/-- The `message` object inside a remote completion choice; `content` may
be absent. -/
structure ChatMessage where
  content : Option String
deriving DecidableEq

/-- One element of the remote reply `choices` array; `message` may be absent. -/
structure ChatChoice where
  message : Option ChatMessage
deriving DecidableEq

/-- The JSON body of a successful remote reply: an optional `choices`
array and optional `usage` metadata of arbitrary, unvalidated shape `U`. -/
structure ChatCompletion (U : Type) where
  choices : Option (List ChatChoice)
  usage : Option U
deriving DecidableEq

/-- Outcome of the one outbound `fetch`: a successful reply with a JSON
body, a non-success HTTP status whose error body was read as text, or a
transport-level exception carrying its message. -/
inductive RemoteOutcome (U : Type) where
  | ok (body : ChatCompletion U)
  | httpError (errorText : String)
  | transportError (message : String)
deriving DecidableEq

/-- The plain result object `callGitHubModel` returns; `none` fields model
JavaScript properties that are absent from the object. -/
structure ChatResult (U : Type) where
  model : String
  response : Option String
  usage : Option U
  error : Option String
  responseTime : ℕ
deriving DecidableEq

/-- `callGitHubModel` from the source.  The network is abstracted by the
`outcome` of the single `fetch` and the measured `elapsed` wall-clock
milliseconds; the function never throws, every outcome is returned as a
plain result value. -/
def callGitHubModel {U : Type} (model message : String) (temperature maxTokens : JSNum)
    (outcome : RemoteOutcome U) (elapsed : ℕ) : ChatResult U :=
  match outcome with
  | .ok result =>
      { model := model
        response := some (match result.choices with
          | some (c :: _) =>
              (match c.message with
               | some m =>
                   (match m.content with
                    | some s => if s = "" then "" else s
                    | none => "")
               | none => "")
          | _ => "")
        usage := result.usage
        error := none
        responseTime := elapsed }
  | .httpError errorText =>
      { model := model, response := none, usage := none,
        error := some errorText, responseTime := elapsed }
  | .transportError msg =>
      { model := model, response := none, usage := none,
        error := some msg, responseTime := elapsed }

/-! ### Route handlers -/

/-- The parameters of one outbound call issued by a handler (the JSON body
sent to the remote endpoint, minus the fixed message role). -/
structure OutboundCall where
  model : String
  message : String
  temperature : JSNum
  max_tokens : JSNum
deriving DecidableEq

/-- The JSON body a handler responds with.  The source wraps some names in
single quotes inside its error strings; the quoted name is carried here as
data instead of re-deriving it from a formatted string. -/
inductive ResBody (U : Type) where
  | modelNotFound (modelId : String) (available_models : List String)
  | qRequired (usageExample : String)
  | modelsRequired (usageExample : String)
  | invalidModels (invalid : List String) (available_models : List String)
  | chatResult (result : ChatResult U)
  | compareResults (results : List (ChatResult U))
deriving DecidableEq

/-- The example string in the 400 reply of the single-model chat route. -/
def chatExample (modelId : String) : String :=
  "/api/models/" ++ modelId ++ "/chat?q=Hello world"

/-- The example string in the 400 replies of the compare route. -/
def compareExample : String :=
  "/api/compare?q=Hello world&models=gpt-4o,Meta-Llama-3.1-8B-Instruct"

/-- `temperature ? parseFloat(temperature) : 0.7` from the handlers. -/
def tempOf (temperature : Option String) : JSNum :=
  if truthy temperature then parseFloat (temperature.getD "") else .num (7 / 10)

/-- `max_tokens ? parseInt(max_tokens) : 1000` from the handlers. -/
def maxTokOf (max_tokens : Option String) : JSNum :=
  if truthy max_tokens then parseInt (max_tokens.getD "") else .num 1000

/-- `models.split(',').map(m => m.trim())` from the compare handler. -/
def parsedModels (models : Option String) : List String :=
  (splitComma (models.getD "")).map jsTrim

/-- Truthiness of `result.error`: present and non-empty. -/
def errTruthy : Option String → Bool
  | none => false
  | some s => s != ""

/-- The `GET /api/models/:modelId/chat` handler.  `oracle` gives, per
model identifier, the remote outcome and elapsed time of an outbound call;
the returned triple is HTTP status, response body, and the outbound calls
issued while handling the request. -/
def chatHandler {U : Type} (modelId : String) (q temperature max_tokens : Option String)
    (oracle : String → RemoteOutcome U × ℕ) : ℕ × ResBody U × List OutboundCall :=
  if !(MODELS.contains modelId) then
    (404, .modelNotFound modelId MODELS, [])
  else if !(truthy q) then
    (400, .qRequired (chatExample modelId), [])
  else
    let msg := q.getD ""
    let temp := tempOf temperature
    let maxTok := maxTokOf max_tokens
    let result := callGitHubModel modelId msg temp maxTok (oracle modelId).1 (oracle modelId).2
    let calls := [OutboundCall.mk modelId msg temp maxTok]
    if errTruthy result.error then
      (500, .chatResult result, calls)
    else
      (200, .chatResult result, calls)

/-- The `GET /api/compare` handler, with the same conventions as
`chatHandler`.  The fan-out awaits all calls (`Promise.all`), so the
results keep the order of the parsed model list. -/
def compareHandler {U : Type} (q models temperature max_tokens : Option String)
    (oracle : String → RemoteOutcome U × ℕ) : ℕ × ResBody U × List OutboundCall :=
  if !(truthy q) then
    (400, .qRequired compareExample, [])
  else if !(truthy models) then
    (400, .modelsRequired compareExample, [])
  else
    let modelsList := parsedModels models
    let invalidModels := modelsList.filter (fun m => !(MODELS.contains m))
    if invalidModels.length > 0 then
      (400, .invalidModels invalidModels MODELS, [])
    else
      let msg := q.getD ""
      let temp := tempOf temperature
      let maxTok := maxTokOf max_tokens
      let results := modelsList.map (fun m =>
        callGitHubModel m msg temp maxTok (oracle m).1 (oracle m).2)
      (200, .compareResults results, modelsList.map (fun m => OutboundCall.mk m msg temp maxTok))

/-! ### Spec-side definitions, for refinement comparisons -/

/-- Modelled from the spec: the publisher-derivation table as "a declarative
table (ordered prefix→label pairs)" evaluated in the fixed priority order
gpt- → OpenAI, Meta-Llama → Meta, Mistral → Mistral, Phi- → Microsoft,
Cohere → Cohere, AI21 → AI21 Labs, Qwen → Qwen. -/
def publisherRules : List (String × String) :=
  [ ("gpt-", "OpenAI"),
    ("Meta-Llama", "Meta"),
    ("Mistral", "Mistral"),
    ("Phi-", "Microsoft"),
    ("Cohere", "Cohere"),
    ("AI21", "AI21 Labs"),
    ("Qwen", "Qwen") ]

/-- Modelled from the spec: publisher derivation as "first matching rule
wins; otherwise Unknown" over `publisherRules`. -/
def getPublisherSpec (modelId : String) : String :=
  match publisherRules.find? (fun r => jsStartsWith modelId r.1) with
  | some r => r.2
  | none => "Unknown"

/-- The seven publisher labels named by the spec. -/
def publisherLabels : List String :=
  ["OpenAI", "Meta", "Mistral", "Microsoft", "Cohere", "AI21 Labs", "Qwen"]

/-- Modelled from the spec: "extracts the first completion's message
content (defaulting to empty string if absent)". -/
def firstContentSpec {U : Type} (body : ChatCompletion U) : String :=
  ((((body.choices).bind List.head?).bind ChatChoice.message).bind ChatMessage.content).getD ""

/-- A concrete usage-metadata shape for the end-to-end example:
`{total_tokens: 5}`. -/
structure UsageTT where
  total_tokens : ℕ
deriving DecidableEq

/-! ### Theorems -/

/-- `List.contains` agrees with membership on strings. -/
theorem contains_mem {l : List String} {a : String} : l.contains a = true ↔ a ∈ l :=
  List.elem_iff

/-- `result.model` is the input model for every outcome of the call. -/
theorem callGitHubModel_model {U : Type} (model message : String)
    (temperature maxTokens : JSNum) (outcome : RemoteOutcome U) (elapsed : ℕ) :
    (callGitHubModel model message temperature maxTokens outcome elapsed).model = model := by
  cases outcome <;> rfl

/-- Reduction of the chat handler on a request that passes both validations. -/
theorem chatHandler_valid_eq {U : Type} (modelId : String)
    (q temperature max_tokens : Option String) (oracle : String → RemoteOutcome U × ℕ)
    (hmem : modelId ∈ MODELS) (hq : truthy q = true) :
    chatHandler modelId q temperature max_tokens oracle =
      ((if errTruthy (callGitHubModel modelId (q.getD "") (tempOf temperature)
          (maxTokOf max_tokens) (oracle modelId).1 (oracle modelId).2).error then 500 else 200),
       ResBody.chatResult (callGitHubModel modelId (q.getD "") (tempOf temperature)
          (maxTokOf max_tokens) (oracle modelId).1 (oracle modelId).2),
       [OutboundCall.mk modelId (q.getD "") (tempOf temperature) (maxTokOf max_tokens)]) := by
  have hc : MODELS.contains modelId = true := contains_mem.mpr hmem
  unfold chatHandler
  cases herr : errTruthy (callGitHubModel modelId (q.getD "") (tempOf temperature)
      (maxTokOf max_tokens) (oracle modelId).1 (oracle modelId).2).error <;>
    simp [hc, hq, herr, hmem]

/-- Reduction of the compare handler when every listed model is registered. -/
theorem compareHandler_valid_eq {U : Type} (q models temperature max_tokens : Option String)
    (oracle : String → RemoteOutcome U × ℕ)
    (hq : truthy q = true) (hm : truthy models = true)
    (hall : ∀ m ∈ parsedModels models, m ∈ MODELS) :
    compareHandler q models temperature max_tokens oracle =
      (200,
       ResBody.compareResults ((parsedModels models).map (fun m =>
         callGitHubModel m (q.getD "") (tempOf temperature) (maxTokOf max_tokens)
           (oracle m).1 (oracle m).2)),
       (parsedModels models).map (fun m =>
         OutboundCall.mk m (q.getD "") (tempOf temperature) (maxTokOf max_tokens))) := by
  have hfil : (parsedModels models).filter (fun m => !(MODELS.contains m)) = [] :=
    List.filter_eq_nil_iff.mpr (fun m hmemL => by
      simp [hall m hmemL])
  unfold compareHandler
  simp [hq, hm, hfil]
  exact hall

/-- Reduction of the compare handler when some listed model is unregistered. -/
theorem compareHandler_invalid_eq {U : Type} (q models temperature max_tokens : Option String)
    (oracle : String → RemoteOutcome U × ℕ)
    (hq : truthy q = true) (hm : truthy models = true)
    (hinv : (parsedModels models).filter (fun m => !(MODELS.contains m)) ≠ []) :
    compareHandler q models temperature max_tokens oracle =
      (400,
       ResBody.invalidModels ((parsedModels models).filter (fun m => !(MODELS.contains m))) MODELS,
       []) := by
  have hlen : ((parsedModels models).filter (fun m => !(MODELS.contains m))).length > 0 :=
    List.length_pos.mpr hinv
  unfold compareHandler
  simp [hq, hm, hlen]
  obtain ⟨x, hx⟩ := List.exists_mem_of_ne_nil _ hinv
  obtain ⟨hx1, hx2⟩ := List.mem_filter.mp hx
  exact ⟨x, hx1, fun hmm => by simp [hmm] at hx2⟩

/-- An unregistered member of the parsed list lands in the invalid filter. -/
theorem mem_invalid_filter {models : Option String} {m : String}
    (hmem : m ∈ parsedModels models) (hnot : m ∉ MODELS) :
    m ∈ (parsedModels models).filter (fun m => !(MODELS.contains m)) := by
  refine List.mem_filter.mpr ⟨hmem, ?_⟩
  cases h : MODELS.contains m
  · rfl
  · exact absurd (contains_mem.mp h) hnot

/-- Claim C7: the publisher-derivation function is pure, deterministic and total
(a Lean function); it agrees everywhere with the ordered prefix-rule table
gpt- → OpenAI, Meta-Llama → Meta, Mistral → Mistral, Phi- → Microsoft,
Cohere → Cohere, AI21 → AI21 Labs, Qwen → Qwen, first match winning,
otherwise Unknown; and every identifier in the fixed registry maps to one
of the seven fixed publisher labels, never to Unknown. -/
theorem getPublisher_matches_rules_and_registry_total :
    (∀ s, getPublisher s = getPublisherSpec s) ∧
    (∀ m ∈ MODELS, getPublisher m ∈ publisherLabels ∧ getPublisher m ≠ "Unknown") := by
  constructor
  · intro s
    simp only [getPublisher, getPublisherSpec, publisherRules, List.find?]
    repeat' split <;> simp_all
  · decide

/-- Witness for C7 at the concrete registry entry `Phi-3.5-mini-instruct`. -/
theorem getPublisher_matches_rules_and_registry_total_witness :
    getPublisher "Phi-3.5-mini-instruct" ∈ publisherLabels ∧
    getPublisher "Phi-3.5-mini-instruct" ≠ "Unknown" :=
  getPublisher_matches_rules_and_registry_total.2 "Phi-3.5-mini-instruct" (by decide)

/-- Claim C1: for every validated compare request (truthy query string and
a comma-separated model list whose every entry is registered), the handler
issues exactly one outbound call per listed model, returns exactly one
result per listed model in the same order as the input list, and responds
200 — for every oracle, so in particular when some or all calls fail. -/
theorem compare_one_call_one_result_per_model {U : Type}
    (q models temperature max_tokens : Option String)
    (oracle : String → RemoteOutcome U × ℕ)
    (hq : truthy q = true) (hm : truthy models = true)
    (hall : ∀ m ∈ parsedModels models, m ∈ MODELS) :
    compareHandler q models temperature max_tokens oracle =
      (200,
       ResBody.compareResults ((parsedModels models).map (fun m =>
         callGitHubModel m (q.getD "") (tempOf temperature) (maxTokOf max_tokens)
           (oracle m).1 (oracle m).2)),
       (parsedModels models).map (fun m =>
         OutboundCall.mk m (q.getD "") (tempOf temperature) (maxTokOf max_tokens))) ∧
    ((compareHandler q models temperature max_tokens oracle).2.2).map OutboundCall.model =
      parsedModels models ∧
    (∃ rs : List (ChatResult U),
      (compareHandler q models temperature max_tokens oracle).2.1 = ResBody.compareResults rs ∧
      rs.map ChatResult.model = parsedModels models ∧
      rs.length = (parsedModels models).length) := by
  have heq := compareHandler_valid_eq q models temperature max_tokens oracle hq hm hall
  refine ⟨heq, ?_, ?_⟩
  · rw [heq]
    simp [List.map_map, Function.comp_def]
  · refine ⟨_, by rw [heq], ?_, by simp⟩
    simp [List.map_map, Function.comp_def, callGitHubModel_model]

/-- Witness for C1: two registered models, remote failing for both, still
one 200 response with one result per model in input order. -/
theorem compare_one_call_one_result_per_model_witness :
    compareHandler (U := Unit) (some "Hi") (some "gpt-4o,gpt-4o-mini") none none
        (fun _ => (RemoteOutcome.httpError "service down", 7)) =
      (200,
       ResBody.compareResults (["gpt-4o", "gpt-4o-mini"].map (fun m =>
         callGitHubModel m "Hi" (tempOf none) (maxTokOf none)
           (RemoteOutcome.httpError "service down") 7)),
       ["gpt-4o", "gpt-4o-mini"].map (fun m =>
         OutboundCall.mk m "Hi" (tempOf none) (maxTokOf none))) :=
  (compare_one_call_one_result_per_model (U := Unit) (some "Hi") (some "gpt-4o,gpt-4o-mini")
    none none (fun _ => (RemoteOutcome.httpError "service down", 7))
    (by decide) (by decide) (by decide)).1

/-- Claim C3: for an identifier outside the registry, the single-model chat
handler responds 404 reporting the unknown model and issues no outbound
call; the compare handler (once its query and list parameters are present)
responds 400 reporting the invalid models and issues no outbound call. -/
theorem unknown_model_chat_404_compare_400 {U : Type} :
    (∀ (modelId : String) (q temperature max_tokens : Option String)
       (oracle : String → RemoteOutcome U × ℕ), modelId ∉ MODELS →
       chatHandler modelId q temperature max_tokens oracle =
         (404, ResBody.modelNotFound modelId MODELS, [])) ∧
    (∀ (q models temperature max_tokens : Option String)
       (oracle : String → RemoteOutcome U × ℕ) (bad : String),
       truthy q = true → truthy models = true →
       bad ∈ parsedModels models → bad ∉ MODELS →
       (compareHandler q models temperature max_tokens oracle).1 = 400 ∧
       (compareHandler q models temperature max_tokens oracle).2.2 = [] ∧
       (compareHandler q models temperature max_tokens oracle).2.1 =
         ResBody.invalidModels
           ((parsedModels models).filter (fun m => !(MODELS.contains m))) MODELS ∧
       bad ∈ (parsedModels models).filter (fun m => !(MODELS.contains m))) := by
  constructor
  · intro modelId q temperature max_tokens oracle hnot
    have hc : MODELS.contains modelId = false := by
      cases h : MODELS.contains modelId
      · rfl
      · exact absurd (contains_mem.mp h) hnot
    unfold chatHandler
    simp [hc, hnot]
  · intro q models temperature max_tokens oracle bad hq hm hmem hnot
    have hbad := mem_invalid_filter hmem hnot
    have heq := compareHandler_invalid_eq q models temperature max_tokens oracle hq hm
      (List.ne_nil_of_mem hbad)
    exact ⟨by rw [heq], by rw [heq], by rw [heq], hbad⟩

/-- Witness for C3 at the unregistered identifier `not-a-model`. -/
theorem unknown_model_chat_404_compare_400_witness :
    chatHandler (U := Unit) "not-a-model" (some "Hi") none none
        (fun _ => (RemoteOutcome.httpError "x", 0)) =
      (404, ResBody.modelNotFound "not-a-model" MODELS, []) :=
  (unknown_model_chat_404_compare_400 (U := Unit)).1 "not-a-model" (some "Hi") none none
    (fun _ => (RemoteOutcome.httpError "x", 0)) (by decide)

/-- Claim C5: when the parsed compare list contains at least one
unregistered identifier, the single 400 response carries the full filter of
invalid identifiers, and every unregistered entry of the list — duplicates
and valid entries notwithstanding — appears in that reported list. -/
theorem compare_reports_all_invalid {U : Type}
    (q models temperature max_tokens : Option String)
    (oracle : String → RemoteOutcome U × ℕ)
    (hq : truthy q = true) (hm : truthy models = true)
    (hinv : (parsedModels models).filter (fun m => !(MODELS.contains m)) ≠ []) :
    compareHandler q models temperature max_tokens oracle =
      (400,
       ResBody.invalidModels
         ((parsedModels models).filter (fun m => !(MODELS.contains m))) MODELS,
       []) ∧
    (∀ m ∈ parsedModels models, m ∉ MODELS →
      m ∈ (parsedModels models).filter (fun m => !(MODELS.contains m))) :=
  ⟨compareHandler_invalid_eq q models temperature max_tokens oracle hq hm hinv,
   fun _ hmem hnot => mem_invalid_filter hmem hnot⟩

/-- Witness for C5: a list with duplicates and mixed validity; both invalid
identifiers are reported, the duplicate twice, the valid one not at all. -/
theorem compare_reports_all_invalid_witness :
    compareHandler (U := Unit) (some "Hi") (some "gpt-4o,foo, bar,foo") none none
        (fun _ => (RemoteOutcome.httpError "x", 0)) =
      (400, ResBody.invalidModels ["foo", "bar", "foo"] MODELS, []) := by
  have h := compare_reports_all_invalid (U := Unit) (some "Hi") (some "gpt-4o,foo, bar,foo")
    none none (fun _ => (RemoteOutcome.httpError "x", 0)) (by decide) (by decide) (by decide)
  exact h.1.trans (by decide)

/-- Counterexample to claim C2 as stated: the remote endpoint answers with
a non-success status and an empty error body, the helper returns the
failure envelope (its error field is present), yet the handler responds
200, because the source tests `result.error` for truthiness and the empty
string is falsy. -/
theorem chat_failure_not_always_500_counterexample :
    (callGitHubModel (U := Unit) "gpt-4o" "Hello" (tempOf none) (maxTokOf none)
        (RemoteOutcome.httpError "") 3).error = some "" ∧
    (chatHandler (U := Unit) "gpt-4o" (some "Hello") none none
        (fun _ => (RemoteOutcome.httpError "", 3))).1 = 200 ∧
    (chatHandler (U := Unit) "gpt-4o" (some "Hello") none none
        (fun _ => (RemoteOutcome.httpError "", 3))).2.1 =
      ResBody.chatResult (ChatResult.mk "gpt-4o" none none (some "") 3) :=
  ⟨rfl, rfl, rfl⟩

/-- Claim C2 as amended: for every validated single-model chat request, the
handler responds with the helper envelope as the body in all cases, with
status 500 exactly when the result's error field is present and non-empty
(truthy); in particular a success result (no error field) yields 200, and a
failure result with empty error text also yields 200. -/
theorem chat_status_matches_error_truthiness {U : Type}
    (modelId : String) (q temperature max_tokens : Option String)
    (oracle : String → RemoteOutcome U × ℕ)
    (hmem : modelId ∈ MODELS) (hq : truthy q = true) :
    (chatHandler modelId q temperature max_tokens oracle).2.1 =
      ResBody.chatResult (callGitHubModel modelId (q.getD "") (tempOf temperature)
        (maxTokOf max_tokens) (oracle modelId).1 (oracle modelId).2) ∧
    ((chatHandler modelId q temperature max_tokens oracle).1 = 500 ↔
      errTruthy (callGitHubModel modelId (q.getD "") (tempOf temperature)
        (maxTokOf max_tokens) (oracle modelId).1 (oracle modelId).2).error = true) ∧
    ((chatHandler modelId q temperature max_tokens oracle).1 = 500 ∨
      (chatHandler modelId q temperature max_tokens oracle).1 = 200) ∧
    ((callGitHubModel modelId (q.getD "") (tempOf temperature)
        (maxTokOf max_tokens) (oracle modelId).1 (oracle modelId).2).error = none →
      (chatHandler modelId q temperature max_tokens oracle).1 = 200) := by
  have heq := chatHandler_valid_eq modelId q temperature max_tokens oracle hmem hq
  rw [heq]
  cases herr : errTruthy (callGitHubModel modelId (q.getD "") (tempOf temperature)
      (maxTokOf max_tokens) (oracle modelId).1 (oracle modelId).2).error <;>
    simp [herr]
  intro hnone
  rw [hnone] at herr
  simp [errTruthy] at herr

/-- Witness for the amended C2: a non-empty error body yields status 500. -/
theorem chat_status_matches_error_truthiness_witness :
    (chatHandler (U := Unit) "gpt-4o" (some "Hello") none none
        (fun _ => (RemoteOutcome.httpError "boom", 3))).1 = 500 :=
  ((chat_status_matches_error_truthiness (U := Unit) "gpt-4o" (some "Hello") none none
      (fun _ => (RemoteOutcome.httpError "boom", 3)) (by decide) (by decide)).2.1).mpr (by decide)

/-- Counterexample to claim C4 as stated: a chat request with a missing
query text but an unregistered model identifier is answered 404 with the
unknown-model body, not 400 with an example usage string, because the
handler validates the model before the query parameter. -/
theorem missing_q_unknown_model_404_counterexample :
    chatHandler (U := Unit) "not-a-model" none none none
        (fun _ => (RemoteOutcome.httpError "x", 0)) =
      (404, ResBody.modelNotFound "not-a-model" MODELS, []) ∧ (404 : ℕ) ≠ 400 :=
  ⟨by decide, by decide⟩

/-- Claim C4 as amended: for every compare request, and for every chat
request whose model identifier is registered, a missing or empty required
query text `q` yields a 400 response carrying an example usage string, and
no outbound call is issued. -/
theorem missing_q_400_with_example {U : Type} :
    (∀ (modelId : String) (q temperature max_tokens : Option String)
       (oracle : String → RemoteOutcome U × ℕ),
       modelId ∈ MODELS → truthy q = false →
       chatHandler modelId q temperature max_tokens oracle =
         (400, ResBody.qRequired (chatExample modelId), [])) ∧
    (∀ (q models temperature max_tokens : Option String)
       (oracle : String → RemoteOutcome U × ℕ),
       truthy q = false →
       compareHandler q models temperature max_tokens oracle =
         (400, ResBody.qRequired compareExample, [])) := by
  constructor
  · intro modelId q temperature max_tokens oracle hmem hq
    unfold chatHandler
    simp [contains_mem.mpr hmem, hmem, hq]
  · intro q models temperature max_tokens oracle hq
    unfold compareHandler
    simp [hq]

/-- Witness for the amended C4: both handlers, `q` absent and `q` empty. -/
theorem missing_q_400_with_example_witness :
    chatHandler (U := Unit) "gpt-4o" none none none
        (fun _ => (RemoteOutcome.httpError "x", 0)) =
      (400, ResBody.qRequired (chatExample "gpt-4o"), []) ∧
    compareHandler (U := Unit) (some "") (some "gpt-4o") none none
        (fun _ => (RemoteOutcome.httpError "x", 0)) =
      (400, ResBody.qRequired compareExample, []) :=
  ⟨(missing_q_400_with_example (U := Unit)).1 "gpt-4o" none none none
      (fun _ => (RemoteOutcome.httpError "x", 0)) (by decide) (by decide),
   (missing_q_400_with_example (U := Unit)).2 (some "") (some "gpt-4o") none none
      (fun _ => (RemoteOutcome.httpError "x", 0)) (by decide)⟩

/-- Claim C6: for every invocation in which the remote endpoint replies
with a non-success HTTP status, the helper result carries the model, the
raw error body in the error field and the elapsed response time, and has
no response field and no usage field. -/
theorem httpError_result_shape {U : Type} (model message : String)
    (temperature maxTokens : JSNum) (errorText : String) (elapsed : ℕ) :
    callGitHubModel (U := U) model message temperature maxTokens
        (RemoteOutcome.httpError errorText) elapsed =
      ChatResult.mk model none none (some errorText) elapsed :=
  rfl

/-- Claim C8: for every successful outbound call the helper extracts the
first completion's message content (defaulting to the empty string when
the choices array, its first element, that element's message, or the
content is absent) and passes the usage metadata through unvalidated; and
the end-to-end example: a chat request for `gpt-4o` with query `Hello`
against a remote reply `{choices:[{message:{content:"Hi!"}}],
usage:{total_tokens:5}}` yields a 200 envelope
`{model:"gpt-4o", response:"Hi!", usage:{total_tokens:5}, responseTime:42}`. -/
theorem success_extracts_first_content_and_usage :
    (∀ (U : Type) (model message : String) (temperature maxTokens : JSNum)
       (body : ChatCompletion U) (elapsed : ℕ),
       callGitHubModel model message temperature maxTokens (RemoteOutcome.ok body) elapsed =
         ChatResult.mk model (some (firstContentSpec body)) body.usage none elapsed) ∧
    chatHandler (U := UsageTT) "gpt-4o" (some "Hello") none none
        (fun _ => (RemoteOutcome.ok (ChatCompletion.mk
          (some [ChatChoice.mk (some (ChatMessage.mk (some "Hi!")))])
          (some (UsageTT.mk 5))), 42)) =
      (200,
       ResBody.chatResult (ChatResult.mk "gpt-4o" (some "Hi!") (some (UsageTT.mk 5)) none 42),
       [OutboundCall.mk "gpt-4o" "Hello" (tempOf none) (maxTokOf none)]) := by
  constructor
  · intro U model message temperature maxTokens body elapsed
    obtain ⟨choices, usage⟩ := body
    match choices with
    | none => rfl
    | some [] => rfl
    | some (ChatChoice.mk none :: _) => rfl
    | some (ChatChoice.mk (some (ChatMessage.mk none)) :: _) => rfl
    | some (ChatChoice.mk (some (ChatMessage.mk (some s))) :: _) =>
        by_cases hs : s = "" <;> simp [callGitHubModel, firstContentSpec, hs]
  · rfl

/-- Claim C9: the outbound call helper is a total function of its inputs
and the remote outcome — it never throws — and for every outcome the
returned plain result carries the input model identifier and the measured
response time, a natural number and hence nonnegative. -/
theorem callGitHubModel_total_model_and_time {U : Type}
    (model message : String) (temperature maxTokens : JSNum)
    (outcome : RemoteOutcome U) (elapsed : ℕ) :
    (callGitHubModel model message temperature maxTokens outcome elapsed).model = model ∧
    (callGitHubModel model message temperature maxTokens outcome elapsed).responseTime
      = elapsed ∧
    0 ≤ (callGitHubModel model message temperature maxTokens outcome elapsed).responseTime := by
  cases outcome <;> exact ⟨rfl, rfl, Nat.zero_le _⟩

/-- Claim C10: a present, non-empty, non-numeric temperature (resp.
max_tokens) query value is parsed to NaN and passed straight into the
outbound call; the validated handlers never answer 400 because of it —
the chat handler answers 500 or 200 and the compare handler 200, each
issuing its outbound calls with the NaN value in the body. -/
theorem nonnumeric_params_nan_passed_through {U : Type} :
    (∀ t : String, t ≠ "" → parseFloat t = JSNum.nan → tempOf (some t) = JSNum.nan) ∧
    (∀ mt : String, mt ≠ "" → parseInt mt = JSNum.nan → maxTokOf (some mt) = JSNum.nan) ∧
    (∀ (modelId : String) (q temperature max_tokens : Option String)
       (oracle : String → RemoteOutcome U × ℕ),
       modelId ∈ MODELS → truthy q = true →
       (chatHandler modelId q temperature max_tokens oracle).1 ≠ 400 ∧
       (chatHandler modelId q temperature max_tokens oracle).2.2 =
         [OutboundCall.mk modelId (q.getD "") (tempOf temperature) (maxTokOf max_tokens)]) ∧
    (∀ (q models temperature max_tokens : Option String)
       (oracle : String → RemoteOutcome U × ℕ),
       truthy q = true → truthy models = true →
       (∀ m ∈ parsedModels models, m ∈ MODELS) →
       (compareHandler q models temperature max_tokens oracle).1 = 200 ∧
       (compareHandler q models temperature max_tokens oracle).2.2 =
         (parsedModels models).map (fun m =>
           OutboundCall.mk m (q.getD "") (tempOf temperature) (maxTokOf max_tokens))) := by
  refine ⟨?_, ?_, ?_, ?_⟩
  · intro t ht hnan
    simp [tempOf, truthy, ht, hnan]
  · intro mt hmt hnan
    simp [maxTokOf, truthy, hmt, hnan]
  · intro modelId q temperature max_tokens oracle hmem hq
    have heq := chatHandler_valid_eq modelId q temperature max_tokens oracle hmem hq
    rw [heq]
    cases errTruthy (callGitHubModel modelId (q.getD "") (tempOf temperature)
        (maxTokOf max_tokens) (oracle modelId).1 (oracle modelId).2).error <;>
      simp
  · intro q models temperature max_tokens oracle hq hm hall
    have heq := compareHandler_valid_eq q models temperature max_tokens oracle hq hm hall
    rw [heq]
    exact ⟨rfl, rfl⟩

/-- Witness for C10: temperature `abc` and max_tokens `xyz` parse to NaN,
and a validated chat request with them is not answered 400; its one
outbound call carries NaN for both. -/
theorem nonnumeric_params_nan_passed_through_witness :
    tempOf (some "abc") = JSNum.nan ∧
    maxTokOf (some "xyz") = JSNum.nan ∧
    (chatHandler (U := Unit) "gpt-4o" (some "Hi") (some "abc") (some "xyz")
        (fun _ => (RemoteOutcome.httpError "e", 3))).1 ≠ 400 ∧
    (chatHandler (U := Unit) "gpt-4o" (some "Hi") (some "abc") (some "xyz")
        (fun _ => (RemoteOutcome.httpError "e", 3))).2.2 =
      [OutboundCall.mk "gpt-4o" "Hi" JSNum.nan JSNum.nan] := by
  have h := nonnumeric_params_nan_passed_through (U := Unit)
  have h1 := h.1 "abc" (by decide) (by decide)
  have h2 := h.2.1 "xyz" (by decide) (by decide)
  have h3 := h.2.2.1 "gpt-4o" (some "Hi") (some "abc") (some "xyz")
    (fun _ => (RemoteOutcome.httpError "e", 3)) (by decide) (by decide)
  exact ⟨h1, h2, h3.1, h3.2.trans (by rw [h1, h2]; decide)⟩

end Kire
